import Mathlib

/-!
Shallow embedding of the IEC 62056-21 readout component
(src/components/iec62056/iec62056.cpp) and proofs about its
frame assembler, frame builder, checksum, baud negotiation,
identification parser, data-line parser and retry machinery.

Bytes are modelled as Nat (all source bytes are uint8_t values < 256;
no arithmetic that could overflow is performed on them, only equality
tests, xor and table lookups).
-/

namespace Iec62056

/-- Wire control byte ETX = 0x03 (iec62056.cpp line 12). -/
def ETX : Nat := 0x03

/-- Wire control byte STX = 0x02 (iec62056.cpp line 13). -/
def STX : Nat := 0x02

/-- Wire control byte ACK = 0x06 (iec62056.cpp line 14). -/
def ACK : Nat := 0x06

/-- Wire control byte SOH = 0x01 (iec62056.cpp line 15). -/
def SOH : Nat := 0x01

/-- Carriage return byte 0x0D. -/
def CR : Nat := 0x0D

/-- Line feed byte 0x0A. -/
def LF : Nat := 0x0A

/-- The fixed ascending baud-rate table BAUDRATES (iec62056.cpp line 18). -/
def BAUDRATES : List Nat := [300, 600, 1200, 2400, 4800, 9600, 19200]

/-- Modelled from the spec: the capacity MAX_IN_BUF_SIZE of the bounded
input buffer is declared in the missing header iec62056.h; the spec's
data model gives bounded byte buffers of "fixed maximum size, e.g. 512
bytes". -/
def MAX_IN_BUF_SIZE : Nat := 512

/-- The mutable state of IEC62056Component that receive_frame_ touches:
in_buf_/data_in_size_ (the accumulator, here a list of its live bytes),
out_buf_/data_out_size_ (the last transmitted frame, used for echo
suppression), readout_lrc_ (the captured received BCC byte) and lrc_
(the running xor-checksum accumulator). -/
structure RxState where
  in_buf : List Nat
  out_buf : List Nat
  readout_lrc : Nat
  lrc : Nat
deriving DecidableEq

/-- One iteration of the byte loop of IEC62056Component::receive_frame_
(iec62056.cpp lines 164-235) for one byte b read from the transport:
append b (evicting the oldest byte when the accumulator is at capacity,
lines 170-182), then check the terminators in the source's priority
order: ACK as last byte (lines 185-192); ETX as second-to-last byte,
capturing the last byte in readout_lrc_ (lines 195-208); STX as last
byte, resetting the running checksum accumulator via reset_lrc_
(lines 210-218); CR LF tail with the echo comparison against the last
transmitted frame (lines 220-234). The returned option is the completed
frame, none when no terminator matched or the echo was discarded. -/
def receive_frame_step (s : RxState) (b : Nat) : RxState × Option (List Nat) :=
  let acc := if s.in_buf.length < MAX_IN_BUF_SIZE then s.in_buf else s.in_buf.tail
  let buf := acc ++ [b]
  if b = ACK then
    ({ s with in_buf := [] }, some buf)
  else if acc.getLast? = some ETX then
    ({ s with in_buf := [], readout_lrc := b }, some buf)
  else if b = STX then
    ({ s with in_buf := [], lrc := 0 }, some buf)
  else if acc.getLast? = some CR ∧ b = LF then
    if buf = s.out_buf then
      ({ s with in_buf := [], out_buf := [] }, none)
    else
      ({ s with in_buf := [] }, some buf)
  else
    ({ s with in_buf := buf }, none)

/-- The baud-switch/ack template set_baud_and_programm
(iec62056.cpp line 387): ACK 30 30 31 0D 0A. -/
def set_baud_and_programm : List Nat := [ACK, 0x30, 0x30, 0x31, CR, LF]

/-- The frame built in the PREPARE_ACK step (iec62056.cpp lines 585-587):
the template is copied to out_buf_ and out_buf_[2] is overwritten with
the negotiated baud-rate identification character. -/
def prepare_ack_frame (baud_rate_char : Nat) : List Nat :=
  set_baud_and_programm.set 2 baud_rate_char

/-- IEC62056Component::update_lrc_ (iec62056.cpp lines 798-802): fold the
data bytes into the running accumulator with exclusive-or. -/
def update_lrc (lrc : Nat) (data : List Nat) : Nat :=
  data.foldl (fun a b => a ^^^ b) lrc

/-- The xor checksum of a byte sequence: update_lrc_ starting from a
zeroed accumulator, as done in READOUT (iec62056.cpp lines 709-711) and,
over the bytes after the leading control byte, in build_readout_command_
(lines 366-372). -/
def xor_checksum (data : List Nat) : Nat := update_lrc 0 data

/-- Modelled from the spec: PROTO_B_RANGE_BEGIN is declared in the missing
header iec62056.h. Per IEC 62056-21 and the spec's baud negotiator
section, mode B identification characters start at 'A' (0x41), indexing
the table from its second entry (600). -/
def PROTO_B_RANGE_BEGIN : Nat := 0x41

/-- Modelled from the spec: PROTO_B_RANGE_END, the last mode B character
'F' (0x46); the mode B sub-range covers the six table entries from 600
to 19200. -/
def PROTO_B_RANGE_END : Nat := 0x46

/-- Modelled from the spec: PROTO_C_RANGE_BEGIN, the first mode C
character '0' (0x30), indexing the table from its first entry (300). -/
def PROTO_C_RANGE_BEGIN : Nat := 0x30

/-- Modelled from the spec: PROTO_C_RANGE_END, the last mode C character
'6' (0x36); the mode C sub-range covers all seven table entries. -/
def PROTO_C_RANGE_END : Nat := 0x36

/-- The protocol variants PROTOCOL_MODE_A/B/C/D. -/
inductive ProtocolMode
  | A
  | B
  | C
  | D
deriving DecidableEq

/-- IEC62056Component::set_protocol_ (iec62056.cpp lines 271-281):
classify the protocol mode from the baud-rate identification character,
with the force-mode-D configuration taking precedence. -/
def set_protocol (force_mode_d : Bool) (z : Nat) : ProtocolMode :=
  if force_mode_d then ProtocolMode.D
  else if PROTO_B_RANGE_BEGIN ≤ z ∧ z ≤ PROTO_B_RANGE_END then ProtocolMode.B
  else if PROTO_C_RANGE_BEGIN ≤ z ∧ z ≤ PROTO_C_RANGE_END then ProtocolMode.C
  else ProtocolMode.A

/-- IEC62056Component::identification_to_baud_rate_ (iec62056.cpp lines
283-295): a mode B character indexes BAUDRATES from entry 1, a mode C
character from entry 0, any other character yields rate 0. -/
def identification_to_baud_rate (z : Nat) : Nat :=
  if PROTO_B_RANGE_BEGIN ≤ z ∧ z ≤ PROTO_B_RANGE_END then
    BAUDRATES.getD (1 + z - PROTO_B_RANGE_BEGIN) 0
  else if PROTO_C_RANGE_BEGIN ≤ z ∧ z ≤ PROTO_C_RANGE_END then
    BAUDRATES.getD (z - PROTO_C_RANGE_BEGIN) 0
  else 0

/-- IEC62056Component::baud_rate_to_identification_ (iec62056.cpp lines
297-314): in mode B scan table entries 1..6 for an exact match, in any
other mode (the source comment says mode C) scan entries 0..6; a match
at entry i yields the character at the mode's offset, no match yields
the mode's minimum character. -/
def baud_rate_to_identification (mode : ProtocolMode) (baud_rate : Nat) : Nat :=
  if mode = ProtocolMode.B then
    match (List.range' 1 6).find? (fun i => BAUDRATES.getD i 0 == baud_rate) with
    | some i => PROTO_B_RANGE_BEGIN + i - 1
    | none => PROTO_B_RANGE_BEGIN
  else
    match (List.range 7).find? (fun i => BAUDRATES.getD i 0 == baud_rate) with
    | some i => PROTO_C_RANGE_BEGIN + i
    | none => PROTO_C_RANGE_BEGIN

/-- The backward scan of IEC62056Component::get_id_ (iec62056.cpp lines
251-266), from index i of the frame buffer down to index 0: at a '/'
byte, when fewer than 7 bytes remain between it and the end of the
fixed-size buffer the packet is declared invalid (break, nullptr),
otherwise the identification string is the bytes from the '/' up to the
null terminator the source writes over the '\r' at frame_size - 2. -/
def get_id_scan (buf : List Nat) : Nat → Option (List Nat)
  | 0 =>
    if buf.getD 0 0 = 0x2F then
      if MAX_IN_BUF_SIZE - 1 - 0 < 7 then none
      else some ((buf.take (buf.length - 2)).drop 0)
    else none
  | i + 1 =>
    if buf.getD (i + 1) 0 = 0x2F then
      if MAX_IN_BUF_SIZE - 1 - (i + 1) < 7 then none
      else some ((buf.take (buf.length - 2)).drop (i + 1))
    else get_id_scan buf i

/-- IEC62056Component::get_id_ (iec62056.cpp lines 247-269): with the
frame in the accumulator buffer, start at index frame_size - 3 (just
before the CR LF) and scan backward for '/'; the while loop requires
frame_size ≥ 7 (the minimum packet '/XXXZ CR LF'), so shorter frames
yield no identification at all. -/
def get_id (buf : List Nat) : Option (List Nat) :=
  if buf.length < 7 then none
  else get_id_scan buf (buf.length - 3)

/-- IEC62056Component::parse_id_ (iec62056.cpp lines 329-340): take the
C-string length of the packet (strlen stops at the first null byte);
the baud-rate identification character is packet[4] when the length is
at least 5, otherwise 0 (protocol A, no baud negotiation); the protocol
mode is classified from that character. Returns the pair
(baud_rate_identification_, mode_). -/
def parse_id (force_mode_d : Bool) (packet : List Nat) : Nat × ProtocolMode :=
  let cstr := packet.takeWhile (fun c => c ≠ 0)
  let z := if cstr.length ≥ 5 then cstr.getD 4 0 else 0
  (z, set_protocol force_mode_d z)

/-- The GET_IDENTIFICATION / MODE_D_WAIT composition: get_id_ on the
completed frame, then parse_id_ on the returned packet (iec62056.cpp
lines 526-529 and 421-423); none when get_id_ found no identification. -/
def identify (force_mode_d : Bool) (frame : List Nat) : Option (Nat × ProtocolMode) :=
  (get_id frame).map (parse_id force_mode_d)

/-- One step of the bracket scan of IEC62056Component::parse_line_
(iec62056.cpp lines 917-929), processing character c at offset i with
the recorded offsets (open, close, open2, close2): the branch chain
records the first unset slot that applies, in the source's order. -/
def bracket_step (st : Option Nat × Option Nat × Option Nat × Option Nat)
    (ic : Nat × Nat) : Option Nat × Option Nat × Option Nat × Option Nat :=
  match st, ic with
  | (ob, cb, ob2, cb2), (i, c) =>
    if c = 0x28 ∧ ob = none then (some i, cb, ob2, cb2)
    else if c = 0x29 ∧ cb = none then (ob, some i, ob2, cb2)
    else if c = 0x28 ∧ ob2 = none then (ob, cb, some i, cb2)
    else if c = 0x29 ∧ cb2 = none then (ob, cb, ob2, some i)
    else (ob, cb, ob2, cb2)

/-- The full left-to-right scan of parse_line_ over the line. -/
def bracket_scan (line : List Nat) :
    Option Nat × Option Nat × Option Nat × Option Nat :=
  line.enum.foldl bracket_step (none, none, none, none)

/-- IEC62056Component::validate_obis_ (iec62056.cpp lines 884-908): an
OBIS code is valid when empty, or of length at most 25 with every
character a digit, an uppercase letter, or one of ':' '.' '-' '*'. -/
def validate_obis (obis : List Nat) : Bool :=
  if obis.isEmpty then true
  else if obis.length > 25 then false
  else obis.all fun c =>
    decide (c = 0x3A ∨ c = 0x2E ∨ c = 0x2D ∨ c = 0x2A ∨
      (0x30 ≤ c ∧ c ≤ 0x39) ∨ (0x41 ≤ c ∧ c ≤ 0x5A))

/-- IEC62056Component::parse_line_ (iec62056.cpp lines 910-946): scan the
line once for the bracket offsets; fail when no opening or no closing
bracket was found or the closing one precedes the opening one; the OBIS
code is everything before the first '(', value 1 the text between the
first pair, value 2 the text between the second pair when both offsets
were recorded with close2 after open2, empty otherwise; finally the
OBIS code must validate. -/
def parse_line (line : List Nat) : Option (List Nat × List Nat × List Nat) :=
  match bracket_scan line with
  | (some ob, some cb, ob2, cb2) =>
    if cb < ob then none
    else
      let obis := line.take ob
      let v1 := (line.drop (ob + 1)).take (cb - ob - 1)
      let v2 :=
        match ob2, cb2 with
        | some o2, some c2 =>
          if o2 < c2 then (line.drop (o2 + 1)).take (c2 - o2 - 1) else []
        | _, _ => []
      if validate_obis obis then some (obis, v1, v2) else none
  | _ => none

/-- The CommState values of the session state machine (see state2txt_,
iec62056.cpp lines 974-1036, and the switch in loop). -/
inductive CommState
  | INFINITE_WAIT
  | WAIT
  | MODE_D_WAIT
  | MODE_D_READOUT
  | BEGIN
  | BATTERY_WAKEUP
  | SEND_REQUEST
  | GET_IDENTIFICATION
  | PREPARE_ACK
  | SET_BAUD_RATE
  | WAIT_FOR_PPP
  | WAIT_FOR_PPP_READ_DATA
  | SEND_PASSWORD
  | WAIT_FOR_ACK
  | WAIT_FOR_STX2
  | READOUT2
  | ASK_FOR_ENERGY
  | WAIT_FOR_STX
  | READOUT
  | UPDATE_STATES
deriving DecidableEq

/-- The configuration surface the retry machinery reads:
force_mode_d_, max_retries_, retry_delay_ and update_interval_ms_. -/
structure Config where
  force_mode_d : Bool
  max_retries : Nat
  retry_delay : Nat
  update_interval_ms : Nat
deriving DecidableEq

/-- The session fields touched by the wait / retry machinery: state_,
wait_next_state_, wait_start_timestamp_, wait_period_ms_,
retry_counter_, scheduled_connection_start_timestamp_ and
scheduled_timestamp_set_. Timestamps are uint32 millisecond values. -/
structure Session where
  state : CommState
  wait_next_state : CommState
  wait_start_timestamp : Nat
  wait_period_ms : Nat
  retry_counter : Nat
  scheduled_connection_start_timestamp : Nat
  scheduled_timestamp_set : Bool
deriving DecidableEq

/-- The uint32 sentinel UINT32_MAX used for "update_interval = never". -/
def UINT32_MAX : Nat := 2 ^ 32 - 1

/-- Unsigned 32-bit subtraction a - b for a b < 2^32, with the wraparound
the source relies on for millis() deltas. -/
def usub32 (a b : Nat) : Nat := (a + 2 ^ 32 - b) % 2 ^ 32

/-- Modelled from the spec: is_periodic_readout_enabled_ is declared in
the missing header iec62056.h; the spec's configuration surface gives
the periodic cadence as "ms, or disabled sentinel" and the source
comment in wait_next_readout_ (iec62056.cpp line 1094) says UINT32_MAX
means no update. -/
def is_periodic_readout_enabled (cfg : Config) : Bool :=
  cfg.update_interval_ms != UINT32_MAX

/-- Modelled from the spec: set_next_state_ is declared in the missing
header iec62056.h; it stores the given state into state_, as the WAIT
handler's state_ = wait_next_state_ assignment shows (iec62056.cpp
line 412). -/
def set_next_state (st : CommState) (s : Session) : Session :=
  { s with state := st }

/-- IEC62056Component::wait_ (iec62056.cpp lines 966-972): enter WAIT,
record the wait start and period, and the state to enter afterwards. -/
def wait (now ms : Nat) (st : CommState) (s : Session) : Session :=
  { s with state := CommState.WAIT, wait_start_timestamp := now,
           wait_period_ms := ms, wait_next_state := st }

/-- Modelled from the spec: retry_counter_inc_ is declared in the missing
header iec62056.h; the spec's propagation policy says the retry handler
increments the retry counter. -/
def retry_counter_inc (s : Session) : Session :=
  { s with retry_counter := s.retry_counter + 1 }

/-- Modelled from the spec: retry_counter_reset_ is declared in the
missing header iec62056.h; the spec says scheduling the next periodic
cycle resets the counter. -/
def retry_counter_reset (s : Session) : Session :=
  { s with retry_counter := 0 }

/-- IEC62056Component::wait_next_readout_ (iec62056.cpp lines 1073-1099):
in mode D go back to MODE_D_WAIT; otherwise compute the remaining wait
before the next scheduled readout with uint32 arithmetic, reset the
retry counter, treat a readout that overran the update interval as
"work continuously" (zero wait), clear scheduled_timestamp_set_, and
either arm a WAIT into BEGIN (periodic) or park in INFINITE_WAIT. -/
def wait_next_readout (cfg : Config) (now : Nat) (s : Session) : Session :=
  if cfg.force_mode_d then set_next_state CommState.MODE_D_WAIT s
  else
    let delta := usub32 now s.scheduled_connection_start_timestamp
    let remaining := usub32 cfg.update_interval_ms delta
    let s1 := retry_counter_reset s
    let actual_wait_time :=
      if delta > cfg.update_interval_ms ∧ is_periodic_readout_enabled cfg then 0
      else remaining
    let s2 := { s1 with scheduled_timestamp_set := false }
    if is_periodic_readout_enabled cfg then
      wait now actual_wait_time CommState.BEGIN s2
    else
      set_next_state CommState.INFINITE_WAIT s2

/-- IEC62056Component::retry_or_sleep_ (iec62056.cpp lines 1045-1056):
in mode D go back to MODE_D_WAIT; once the retry counter has reached
the configured maximum give the cycle up and schedule the next readout;
otherwise increment the counter and arm a retry-delay WAIT into BEGIN. -/
def retry_or_sleep (cfg : Config) (now : Nat) (s : Session) : Session :=
  if cfg.force_mode_d then set_next_state CommState.MODE_D_WAIT s
  else if s.retry_counter ≥ cfg.max_retries then wait_next_readout cfg now s
  else wait now cfg.retry_delay CommState.BEGIN (retry_counter_inc s)

/-- The first-byte dispatch of the five frame-expecting states of loop:
WAIT_FOR_PPP (iec62056.cpp lines 604-615), WAIT_FOR_PPP_READ_DATA
(lines 617-628), WAIT_FOR_ACK (lines 639-650), WAIT_FOR_STX2 (lines
652-666) and WAIT_FOR_STX (lines 682-696), given the first byte of a
completed frame. Every other state is left untouched by this
abstraction. -/
def handle_frame (cfg : Config) (now : Nat) (s : Session) (first : Nat) : Session :=
  match s.state with
  | CommState.WAIT_FOR_PPP =>
    if first = SOH then set_next_state CommState.WAIT_FOR_PPP_READ_DATA s
    else retry_or_sleep cfg now s
  | CommState.WAIT_FOR_PPP_READ_DATA =>
    if first = 0x28 then set_next_state CommState.SEND_PASSWORD s
    else retry_or_sleep cfg now s
  | CommState.WAIT_FOR_ACK =>
    if first = ACK then set_next_state CommState.ASK_FOR_ENERGY s
    else s
  | CommState.WAIT_FOR_STX2 =>
    if first = STX then set_next_state CommState.READOUT2 s
    else retry_or_sleep cfg now s
  | CommState.WAIT_FOR_STX =>
    if first = STX then set_next_state CommState.READOUT s
    else retry_or_sleep cfg now s
  | _ => s

/-- A mode A/B/C configuration with max_retries = 2 and a 60 s periodic
cadence, for the retry-exhaustion scenario. -/
def cfg0 : Config :=
  { force_mode_d := false, max_retries := 2, retry_delay := 60000,
    update_interval_ms := 60000 }

/-- A session mid-cycle (in GET_IDENTIFICATION) with a fresh retry
counter, as after wait_next_readout_ armed the current cycle. -/
def session0 : Session :=
  { state := CommState.GET_IDENTIFICATION,
    wait_next_state := CommState.BEGIN,
    wait_start_timestamp := 0, wait_period_ms := 0, retry_counter := 0,
    scheduled_connection_start_timestamp := 0,
    scheduled_timestamp_set := true }

/-- The retry-exhaustion trace: every readout cycle fails with a
retryable condition, so retry_or_sleep_ runs once per cycle, the k-th
invocation at millis() = 1000 * k. -/
def retryTrace : Nat → Session
  | 0 => session0
  | k + 1 => retry_or_sleep cfg0 (1000 * (k + 1)) (retryTrace k)

/-- What the MODE_D_READOUT handler does with a completed frame. -/
inductive ModeDAction
  | end_of_data
  | ignored
  | rejected
  | delivered (obis value1 value2 : List Nat)
deriving DecidableEq

/-- The null-termination step of the MODE_D_READOUT data branch
(iec62056.cpp line 449): a null byte is written over the '\r' at
frame_size - 2 and the frame is then read as a C string, so the line
is the frame without its last two bytes, cut at the first null. -/
def strip_crlf_line (frame : List Nat) : List Nat :=
  (frame.take (frame.length - 2)).takeWhile (fun c => c != 0)

/-- The MODE_D_READOUT handler of loop (iec62056.cpp lines 436-476)
given the completed frame and the mode_d_empty_frame_received flag:
a frame starting with '!' ends the transmission; otherwise the frame is
null-terminated and, when the flag is still clear and the resulting
line is empty, the frame is ignored and the flag set; any other line
goes through parse_line_, a failure dropping the frame and a success
delivering the parsed triple to the matching sensors. Returns the
action and the new flag. -/
def mode_d_readout_step (flag : Bool) (frame : List Nat) : ModeDAction × Bool :=
  if frame.getD 0 0 = 0x21 then (ModeDAction.end_of_data, flag)
  else
    let line := strip_crlf_line frame
    if flag = false ∧ line = [] then (ModeDAction.ignored, true)
    else
      match parse_line line with
      | none => (ModeDAction.rejected, flag)
      | some (obis, v1, v2) => (ModeDAction.delivered obis v1 v2, flag)

/-- The MODE_D_WAIT handler of loop (iec62056.cpp lines 417-431) given a
completed frame and the mode_d_empty_frame_received flag: when get_id_
recognizes an identification the id is parsed (with force_mode_d set)
and the flag is cleared for the new session; otherwise nothing changes.
Returns the parse result and the new flag. -/
def mode_d_wait_step (flag : Bool) (frame : List Nat) :
    Option (Nat × ProtocolMode) × Bool :=
  match get_id frame with
  | some packet => (some (parse_id true packet), false)
  | none => (none, flag)

/-!  Theorems settling the claims.  -/

/-- C1 counterexample: for the negotiated character 0x35 the frame the
PREPARE_ACK step sends is ACK 30 35 31 0D 0A, not the claimed
ACK 30 30 35 0D 0A: the character lands in the third byte (index 2)
and the fourth byte stays the template's '1'. -/
theorem prepare_ack_frame_cex :
    prepare_ack_frame 0x35 = [ACK, 0x30, 0x35, 0x31, CR, LF] ∧
    prepare_ack_frame 0x35 ≠ [ACK, 0x30, 0x30, 0x35, CR, LF] ∧
    (prepare_ack_frame 0x35).getD 3 0 ≠ 0x35 := by
  refine ⟨rfl, ?_, ?_⟩ <;> decide

/-- C1 (amended): for every negotiated baud-rate identification
character c, the baud-switch/ack frame sent in the PREPARE_ACK step is
exactly the 6 bytes ACK '0' c '1' CR LF: c occupies the third byte
(index 2, overwriting the second '0' of the template) and the fourth
byte is the fixed programming-mode character '1'. -/
theorem prepare_ack_frame_layout (c : Nat) :
    prepare_ack_frame c = [ACK, 0x30, c, 0x31, CR, LF] ∧
    (prepare_ack_frame c).getD 2 0 = c := by
  exact ⟨rfl, rfl⟩

/-- C6: the xor checksum is its own inverse: recomputing it over the
covered bytes with the checksum byte appended yields 0. -/
theorem xor_checksum_self_inverse (bs : List Nat) :
    xor_checksum (bs ++ [xor_checksum bs]) = 0 := by
  simp [xor_checksum, update_lrc, List.foldl_append]

/-- C7: on every identification character of a mode's valid sub-range
(mode B: PROTO_B_RANGE_BEGIN .. PROTO_B_RANGE_BEGIN + 5, indexing the
table from 600; mode C: PROTO_C_RANGE_BEGIN .. PROTO_C_RANGE_BEGIN + 6,
indexing from 300), converting the character to a baud rate and back in
the same mode is the identity, and likewise converting a table rate of
the mode's sub-range to a character and back is the identity. -/
theorem baud_rate_roundtrip :
    ((List.range' PROTO_B_RANGE_BEGIN 6).all fun z =>
        decide (baud_rate_to_identification ProtocolMode.B
          (identification_to_baud_rate z) = z)) = true ∧
    ((List.range' PROTO_C_RANGE_BEGIN 7).all fun z =>
        decide (baud_rate_to_identification ProtocolMode.C
          (identification_to_baud_rate z) = z)) = true ∧
    ((List.range' 1 6).all fun i =>
        decide (identification_to_baud_rate (baud_rate_to_identification
          ProtocolMode.B (BAUDRATES.getD i 0)) = BAUDRATES.getD i 0)) = true ∧
    ((List.range 7).all fun i =>
        decide (identification_to_baud_rate (baud_rate_to_identification
          ProtocolMode.C (BAUDRATES.getD i 0)) = BAUDRATES.getD i 0)) = true := by
  refine ⟨?_, ?_, ?_, ?_⟩ <;> decide

/-- C8 counterexample: for the 6-byte identification frame "/ABC" CR LF
the identification step yields no identification at all (get_id_
returns nullptr because the frame is shorter than the 7-byte minimum
packet), instead of the claimed success with character 0 and mode A. -/
theorem identify_short_frame_cex :
    identify false [0x2F, 0x41, 0x42, 0x43, CR, LF] = none ∧
    get_id [0x2F, 0x41, 0x42, 0x43, CR, LF] = none := by
  refine ⟨?_, ?_⟩ <;> decide

/-- C8 (amended): the frame "/ABC" CR LF fails identification ("no
identification found"), because get_id_ requires at least 7 bytes;
the char-0 / mode-A outcome of the short-line rule arises only for
frames of at least 7 bytes whose identification text after the '/' is
shorter than 5 characters, e.g. "ab/cd" CR LF, where get_id_ returns
"/cd" and parse_id_ yields character value 0 and protocol mode A. -/
theorem identify_short_line :
    identify false [0x2F, 0x41, 0x42, 0x43, CR, LF] = none ∧
    get_id [0x61, 0x62, 0x2F, 0x63, 0x64, CR, LF] = some [0x2F, 0x63, 0x64] ∧
    identify false [0x61, 0x62, 0x2F, 0x63, 0x64, CR, LF]
      = some (0, ProtocolMode.A) := by
  refine ⟨?_, ?_, ?_⟩ <;> decide

/-- C9 counterexample: for the line "X((a)b)" the parser records the
second '(' at offset 2 although the first ')' has not been seen yet,
so value 2 is "a)b" rather than empty/absent. -/
theorem parse_line_nested_cex :
    parse_line [0x58, 0x28, 0x28, 0x61, 0x29, 0x62, 0x29]
      = some ([0x58], [0x28, 0x61], [0x61, 0x29, 0x62]) ∧
    ([0x61, 0x29, 0x62] : List Nat) ≠ [] := by
  refine ⟨?_, ?_⟩ <;> decide

/-- C9 (amended): in the single left-to-right scan a second '(' is
recorded as soon as the first '(' has been found, whether or not the
first ')' has been seen, while a second ')' is recorded only once the
first ')' has been found; consequently for "X((a)b)" value 2 is "a)b",
extracted from the interior '(' and the final ')'. -/
theorem parse_line_second_bracket :
    (∀ i j : Nat, bracket_step (some i, none, none, none) (j, 0x28)
        = (some i, none, some j, none)) ∧
    (∀ i j k : Nat, bracket_step (some i, none, some j, none) (k, 0x29)
        = (some i, some k, some j, none)) ∧
    parse_line [0x58, 0x28, 0x28, 0x61, 0x29, 0x62, 0x29]
      = some ([0x58], [0x28, 0x61], [0x61, 0x29, 0x62]) := by
  refine ⟨fun i j => rfl, fun i j k => rfl, by decide⟩

/-- C2 counterexample: a frame completed by the ETX terminator rule
(accumulator [0x31, ETX], next byte 0x42) captures 0x42 as the received
checksum and empties the accumulator, but the running checksum
accumulator lrc_ keeps its old value 0x55 instead of being reset to
zero. -/
theorem receive_etx_lrc_cex :
    (receive_frame_step
        { in_buf := [0x31, ETX], out_buf := [], readout_lrc := 0, lrc := 0x55 }
        0x42).2 = some [0x31, ETX, 0x42] ∧
    (receive_frame_step
        { in_buf := [0x31, ETX], out_buf := [], readout_lrc := 0, lrc := 0x55 }
        0x42).1 =
      { in_buf := [], out_buf := [], readout_lrc := 0x42, lrc := 0x55 } ∧
    (0x55 : Nat) ≠ 0 := by
  refine ⟨?_, ?_, ?_⟩ <;> decide

/-- C2 (amended): whenever the frame assembler completes a frame because
the accumulator ends in ETX (and the new byte is not ACK, which is
checked first), it captures that new byte as the received checksum
value and resets the accumulator to empty; the running checksum
accumulator is left unchanged (it is reset by the STX rule, not here). -/
theorem receive_etx_completion (s : RxState) (b : Nat)
    (hcap : s.in_buf.length < MAX_IN_BUF_SIZE)
    (hetx : s.in_buf.getLast? = some ETX) (hb : b ≠ ACK) :
    receive_frame_step s b =
      ({ s with in_buf := [], readout_lrc := b }, some (s.in_buf ++ [b])) := by
  simp only [receive_frame_step, if_pos hcap, hetx, if_neg hb]
  simp

/-- C2 witness: the amended ETX-completion theorem at a concrete state
with lrc_ = 7, showing lrc_ = 7 survives the completed frame. -/
theorem receive_etx_completion_witness :
    receive_frame_step
        { in_buf := [0x31, ETX], out_buf := [], readout_lrc := 0, lrc := 7 }
        0x20 =
      ({ in_buf := [], out_buf := [], readout_lrc := 0x20, lrc := 7 },
        some [0x31, ETX, 0x20]) :=
  receive_etx_completion
    { in_buf := [0x31, ETX], out_buf := [], readout_lrc := 0, lrc := 7 }
    0x20 (by decide) (by decide) (by decide)

/-- C3: when the accumulator ends in CR and the newly appended byte is
LF, the assembler discards the accumulation and reports no frame
exactly when the accumulated bytes equal the most recently transmitted
outgoing frame byte-for-byte (also clearing the stored outgoing frame);
for any other CR-LF-terminated accumulation it returns the accumulation
as a completed frame. -/
theorem receive_crlf_echo (s : RxState) (b : Nat)
    (hcap : s.in_buf.length < MAX_IN_BUF_SIZE)
    (hcr : s.in_buf.getLast? = some CR) (hb : b = LF) :
    (s.in_buf ++ [b] = s.out_buf →
      receive_frame_step s b = ({ s with in_buf := [], out_buf := [] }, none)) ∧
    (s.in_buf ++ [b] ≠ s.out_buf →
      receive_frame_step s b = ({ s with in_buf := [] }, some (s.in_buf ++ [b]))) := by
  subst hb
  have hack : (LF : Nat) ≠ ACK := by decide
  constructor
  · intro hecho
    simp only [receive_frame_step, if_pos hcap, if_neg hack, hcr]
    simp [CR, ETX, LF, STX]
    exact hecho
  · intro hne
    simp only [receive_frame_step, if_pos hcap, if_neg hack, hcr]
    simp [CR, ETX, LF, STX]
    exact hne

/-- C3 witness: the CR-LF rule at concrete states: the echo of the
out-frame [0x2F, CR, LF] is discarded with no frame reported, while the
same bytes with a different out-frame complete as a frame. -/
theorem receive_crlf_echo_witness :
    (receive_frame_step
        { in_buf := [0x2F, CR], out_buf := [0x2F, CR, LF], readout_lrc := 0, lrc := 0 }
        LF =
      ({ in_buf := [], out_buf := [], readout_lrc := 0, lrc := 0 }, none)) ∧
    (receive_frame_step
        { in_buf := [0x2F, CR], out_buf := [], readout_lrc := 0, lrc := 0 }
        LF =
      ({ in_buf := [], out_buf := [], readout_lrc := 0, lrc := 0 },
        some [0x2F, CR, LF])) :=
  ⟨(receive_crlf_echo
      { in_buf := [0x2F, CR], out_buf := [0x2F, CR, LF], readout_lrc := 0, lrc := 0 }
      LF (by decide) (by decide) rfl).1 (by decide),
   (receive_crlf_echo
      { in_buf := [0x2F, CR], out_buf := [], readout_lrc := 0, lrc := 0 }
      LF (by decide) (by decide) rfl).2 (by decide)⟩

/-- Helper: with the cfg0 configuration (max_retries = 2, no mode D),
one retry_or_sleep_ invocation always leaves the retry counter at
most 2: a counter below 2 is incremented to at most 2, a counter at or
above 2 is reset to 0 by wait_next_readout_. -/
theorem retry_or_sleep_cfg0_counter_le (now : Nat) (s : Session) :
    (retry_or_sleep cfg0 now s).retry_counter ≤ 2 := by
  by_cases h : 2 ≤ s.retry_counter
  · simp [retry_or_sleep, cfg0, wait_next_readout, retry_counter_reset,
      wait, set_next_state, is_periodic_readout_enabled, UINT32_MAX,
      retry_counter_inc, h]
  · simp [retry_or_sleep, cfg0, wait, retry_counter_inc, h]
    omega

/-- C4: the retry-exhaustion scenario with max_retries = 2 and every
cycle failing with a retryable condition: the first two retry_or_sleep_
invocations increment the retry counter (to 1 and then 2) and re-arm a
WAIT into BEGIN; the third invocation sees the counter at the maximum
(exactly 2, never beyond it), gives the cycle up, schedules the next
periodic wait into BEGIN and resets the counter to 0; the counter never
exceeds the configured maximum anywhere along the trace. -/
theorem retry_exhaustion :
    (retryTrace 1).retry_counter = 1 ∧
    (retryTrace 1).state = CommState.WAIT ∧
    (retryTrace 1).wait_next_state = CommState.BEGIN ∧
    (retryTrace 1).wait_period_ms = cfg0.retry_delay ∧
    (retryTrace 2).retry_counter = 2 ∧
    (retryTrace 2).state = CommState.WAIT ∧
    (retryTrace 2).wait_next_state = CommState.BEGIN ∧
    (retryTrace 2).wait_period_ms = cfg0.retry_delay ∧
    (retryTrace 3).retry_counter = 0 ∧
    (retryTrace 3).state = CommState.WAIT ∧
    (retryTrace 3).wait_next_state = CommState.BEGIN ∧
    (retryTrace 3).scheduled_timestamp_set = false ∧
    (∀ k : Nat, (retryTrace k).retry_counter ≤ cfg0.max_retries) := by
  refine ⟨by decide, by decide, by decide, by decide, by decide, by decide,
    by decide, by decide, by decide, by decide, by decide, by decide, ?_⟩
  intro k
  cases k with
  | zero => decide
  | succ n => exact retry_or_sleep_cfg0_counter_le (1000 * (n + 1)) (retryTrace n)

/-- A concrete session sitting in WAIT_FOR_ACK with a fresh retry
counter. -/
def session_ack : Session :=
  { state := CommState.WAIT_FOR_ACK, wait_next_state := CommState.BEGIN,
    wait_start_timestamp := 0, wait_period_ms := 0, retry_counter := 0,
    scheduled_connection_start_timestamp := 0,
    scheduled_timestamp_set := true }

/-- C5 counterexample: in the wait-for-password-ACK step a completed
frame whose first byte is the unexpected control byte STX leaves the
session completely unchanged - still waiting in WAIT_FOR_ACK with the
same retry counter - and does not invoke the retry policy (whose result
differs from staying put). -/
theorem wait_for_ack_no_retry_cex :
    handle_frame cfg0 5000 session_ack STX = session_ack ∧
    (handle_frame cfg0 5000 session_ack STX).state = CommState.WAIT_FOR_ACK ∧
    (handle_frame cfg0 5000 session_ack STX).retry_counter
      = session_ack.retry_counter ∧
    retry_or_sleep cfg0 5000 session_ack ≠ handle_frame cfg0 5000 session_ack STX := by
  refine ⟨?_, ?_, ?_, ?_⟩ <;> decide

/-- C5 (amended): of the five frame-expecting steps, the wait-for-STX
steps (WAIT_FOR_STX, WAIT_FOR_STX2) and the password-prompt steps
(WAIT_FOR_PPP, WAIT_FOR_PPP_READ_DATA) invoke the retry policy on a
completed frame with an unexpected first byte, but the
wait-for-password-ACK step (WAIT_FOR_ACK) does not: an unexpected byte
there leaves the machine waiting in the same state. -/
theorem unexpected_byte_retry_policy (cfg : Config) (now : Nat)
    (s : Session) (b : Nat) :
    (handle_frame cfg now { s with state := CommState.WAIT_FOR_STX } b =
      if b = STX then { s with state := CommState.READOUT }
      else retry_or_sleep cfg now { s with state := CommState.WAIT_FOR_STX }) ∧
    (handle_frame cfg now { s with state := CommState.WAIT_FOR_STX2 } b =
      if b = STX then { s with state := CommState.READOUT2 }
      else retry_or_sleep cfg now { s with state := CommState.WAIT_FOR_STX2 }) ∧
    (handle_frame cfg now { s with state := CommState.WAIT_FOR_PPP } b =
      if b = SOH then { s with state := CommState.WAIT_FOR_PPP_READ_DATA }
      else retry_or_sleep cfg now { s with state := CommState.WAIT_FOR_PPP }) ∧
    (handle_frame cfg now { s with state := CommState.WAIT_FOR_PPP_READ_DATA } b =
      if b = 0x28 then { s with state := CommState.SEND_PASSWORD }
      else retry_or_sleep cfg now
        { s with state := CommState.WAIT_FOR_PPP_READ_DATA }) ∧
    (handle_frame cfg now { s with state := CommState.WAIT_FOR_ACK } b =
      if b = ACK then { s with state := CommState.ASK_FOR_ENERGY }
      else { s with state := CommState.WAIT_FOR_ACK }) :=
  ⟨rfl, rfl, rfl, rfl, rfl⟩

/-- C10: in mode D, once MODE_D_WAIT has recognized an identification
frame it clears the empty-frame flag for the new session; then the
first non-terminator frame whose line (after stripping CR LF) is empty
is silently ignored - not parsed, not delivered - and sets the flag;
with the flag set, a further empty frame is handed to the data-line
parser and rejected as malformed. -/
theorem mode_d_empty_frame (id_frame frame frame2 : List Nat) (flag : Bool)
    (hid : (get_id id_frame).isSome = true)
    (h1 : frame.getD 0 0 ≠ 0x21) (h2 : strip_crlf_line frame = [])
    (h3 : frame2.getD 0 0 ≠ 0x21) (h4 : strip_crlf_line frame2 = []) :
    (mode_d_wait_step flag id_frame).2 = false ∧
    mode_d_readout_step false frame = (ModeDAction.ignored, true) ∧
    mode_d_readout_step true frame2 = (ModeDAction.rejected, true) := by
  refine ⟨?_, ?_, ?_⟩
  · unfold mode_d_wait_step
    cases hg : get_id id_frame with
    | some p => simp
    | none => rw [hg] at hid; simp at hid
  · have h1' : ¬frame[0]?.getD 0 = 33 := by simpa [List.getD] using h1
    simp [mode_d_readout_step, h1', h2]
  · have h3' : ¬frame2[0]?.getD 0 = 33 := by simpa [List.getD] using h3
    simp [mode_d_readout_step, h3', h4, parse_line, bracket_scan]

/-- C10 witness: the empty-frame rule at concrete frames: the
identification frame "/ABCD" CR LF clears the flag, the bare CR LF
frame is ignored once and rejected the second time. -/
theorem mode_d_empty_frame_witness :
    (mode_d_wait_step true [0x2F, 0x41, 0x42, 0x43, 0x44, CR, LF]).2 = false ∧
    mode_d_readout_step false [CR, LF] = (ModeDAction.ignored, true) ∧
    mode_d_readout_step true [CR, LF] = (ModeDAction.rejected, true) :=
  mode_d_empty_frame [0x2F, 0x41, 0x42, 0x43, 0x44, CR, LF] [CR, LF] [CR, LF]
    true (by decide) (by decide) (by decide) (by decide) (by decide)

end Iec62056
